import Mathlib

/-!
# JIXIFY-TRIAL: account lifecycle and token core, shallowly embedded

The repository contains two variants of the same Express server:
`src/index.js` (embedded below as namespace `Main`) and `src/api/index.js`
(namespace `Api`).  Both register accounts in a MySQL table `users_tbl`,
confirm email ownership through a signed JWT link, and issue bearer session
tokens on login.

Modelling conventions:

* A JWT is a record of its claims payload, the secret it was signed with,
  its issue time and its ttl (seconds).  `jwt.verify(token, secret)`
  succeeds iff the secrets agree and the token is unexpired; a malformed
  token string is represented by a non-token word, on which verification
  fails.
* bcrypt is modelled by its contract: `bcryptHash` is injective in the
  plaintext and `bcryptCompare pw d` succeeds exactly when `d` is the digest
  of `pw`.
* The MySQL pool is a list of rows plus the AUTO_INCREMENT counter.
  Infrastructure failures of a query (connection loss etc.) are injected
  through an explicit `Option String` argument carrying the driver error
  message (`err.message`); duplicate-key errors (`ER_DUP_ENTRY`) are
  computed from the table contents, as the UNIQUE constraints on `email`
  and `username` produce them.  mysql2 connects with the FOUND_ROWS client
  flag by default, so `result.affectedRows` of an UPDATE counts the rows
  MATCHED by the WHERE clause, not the rows actually changed; `affected`
  below is that matched count.
* `transporter.sendMail` is one delivery attempt; its outcome is injected
  through an `Option String` failure argument.  The list of attempts made
  by a handler is part of its output.
* An HTTP Authorization header is modelled by its list of space-separated
  words (`String.split(" ")` in the source), a word being either plain text
  or a serialized token; JWT serializations contain no space, so this is
  faithful.  JavaScript truthiness of the extracted word (the empty string
  is falsy) is modelled by `truthy`.
-/

namespace Jixify

/-- Claims payload embedded in a JWT: verification tokens carry `{email}`
(`id = none`), session tokens carry `{id, email}`. -/
structure JwtClaims where
  id : Option Nat
  email : String
deriving DecidableEq

/-- A signed JWT: `jwt.sign(payload, secret, {expiresIn})`. -/
structure Token where
  claims : JwtClaims
  secret : String
  issuedAt : Nat
  ttlSeconds : Nat
deriving DecidableEq

/-- `expiresIn: "1d"` in seconds. -/
def oneDay : Nat := 86400

/-- `expiresIn: "1h"` in seconds. -/
def oneHour : Nat := 3600

/-- `jwt.sign(payload, secret, { expiresIn: ttl })`. -/
def signJwt (payload : JwtClaims) (secret : String) (now ttl : Nat) : Token :=
  { claims := payload, secret := secret, issuedAt := now, ttlSeconds := ttl }

/-- `jwt.verify(token, secret, cb)`: the callback receives the decoded
claims when the signature matches and the token is unexpired, an error
otherwise. -/
def verifyJwt (t : Token) (secret : String) (now : Nat) : Option JwtClaims :=
  if t.secret = secret && decide (now < t.issuedAt + t.ttlSeconds) then some t.claims else none

/-- `bcrypt.hash(password, cost)`: modelled by its contract, an injective
one-way transform of the plaintext. -/
def bcryptHash (pw : String) (cost : Nat) : String :=
  "bcrypt:" ++ toString cost ++ ":" ++ pw

/-- `bcrypt.compare(password, digest)`: true exactly when `digest` is the
digest of `password`. -/
def bcryptCompare (pw digest : String) : Bool :=
  digest = bcryptHash pw 10

/-- A row of `users_tbl`: `id` AUTO_INCREMENT PRIMARY KEY, `username`
UNIQUE (nullable), `email` UNIQUE, `password` (the bcrypt digest),
`verified` BOOLEAN DEFAULT false. -/
structure Account where
  id : Nat
  username : Option String
  email : String
  password : String
  verified : Bool
deriving DecidableEq

/-- The `users_tbl` table plus its AUTO_INCREMENT counter. -/
structure DB where
  accounts : List Account
  nextId : Nat
deriving DecidableEq

/-- Whether an INSERT of this email would violate the UNIQUE(email)
constraint. -/
def emailTaken (db : DB) (email : String) : Bool :=
  db.accounts.any (fun a => a.email = email)

/-- Whether an INSERT of this username would violate the UNIQUE(username)
constraint; MySQL UNIQUE admits any number of NULLs. -/
def usernameTaken (db : DB) (username : Option String) : Bool :=
  match username with
  | none => false
  | some u => db.accounts.any (fun a => a.username = some u)

/-- `SELECT * FROM users_tbl WHERE email = ?` followed by `results[0]`. -/
def findByEmail (db : DB) (email : String) : Option Account :=
  db.accounts.find? (fun a => a.email = email)

/-- `UPDATE users_tbl SET verified = true WHERE email = ?`: the resulting
table. -/
def markVerified (db : DB) (email : String) : DB :=
  { db with accounts :=
      db.accounts.map (fun a => if a.email = email then { a with verified := true } else a) }

/-- `result.affectedRows` of that UPDATE under mysql2 default flags
(FOUND_ROWS): the number of rows matched by the WHERE clause. -/
def affectedRows (db : DB) (email : String) : Nat :=
  (db.accounts.filter (fun a => a.email = email)).length

/-- A logical HTTP response: status plus the `error`/`message` payload and
the optional issued token. -/
structure Resp where
  status : Nat
  error : Option String := none
  message : Option String := none
  token : Option Token := none
deriving DecidableEq

/-- One `transporter.sendMail` attempt: recipient and the token embedded in
the verification link. -/
structure MailMsg where
  toAddr : String
  token : Token
deriving DecidableEq

/-- Output of a register handler: the response, the table afterwards, and
the mail delivery attempts made. -/
structure RegisterOut where
  resp : Resp
  db : DB
  mails : List MailMsg
deriving DecidableEq

/-- Output of a verify-email handler: the response and the table
afterwards (the handler sends no mail). -/
structure VerifyOut where
  resp : Resp
  db : DB
deriving DecidableEq

/-- A space-separated word of an Authorization header: plain text or a
serialized JWT (JWT serializations contain no space). -/
inductive AuthWord
  | text (s : String)
  | tok (t : Token)
deriving DecidableEq

/-- JavaScript truthiness of the extracted header word: the empty string is
falsy, every token string is nonempty hence truthy. -/
def truthy : AuthWord → Bool
  | .text s => !(s = "")
  | .tok _ => true

/-- `jwt.verify` applied to a header word: plain text is malformed. -/
def verifyWord (w : AuthWord) (secret : String) (now : Nat) : Option JwtClaims :=
  match w with
  | .text _ => none
  | .tok t => verifyJwt t secret now

/-- Outcome of the `authenticateToken` middleware. -/
inductive AuthResult
  | unauthorized
  | forbidden
  | ok (user : JwtClaims)
deriving DecidableEq

/-- `a || b` of JavaScript on the extracted header word and the cookie
token: a present falsy value still falls through to `b`. -/
def jsOr (a b : Option AuthWord) : Option AuthWord :=
  match a with
  | some w => if truthy w then some w else b
  | none => b

end Jixify

namespace Jixify.Main

/-!
## `src/index.js`

`POST /register` (lines 90-129), `GET /verify-email` (132-152),
`POST /login` (155-175), `authenticateToken` (68-80), `POST /chat`
(178-198).
-/

open Jixify

/-- `POST /register` of `src/index.js`: requires `email` and `password`
(`username` optional, inserted as NULL when absent); `ER_DUP_ENTRY` yields
400 "User or email already exists", any other insert error 500
"Database error"; on success it mints a 1-day verification token for
`{email}`, attempts one mail delivery, and reports 500 on mail failure or
201 on success.  `dbFail` injects a non-duplicate driver error with its
message, `mailFail` a delivery failure. -/
def register (db : DB) (username email password : Option String)
    (secret : String) (now : Nat)
    (dbFail mailFail : Option String) : RegisterOut :=
  match email, password with
  | some e, some p =>
    let hashed := bcryptHash p 10
    if emailTaken db e || usernameTaken db username then
      { resp := { status := 400, error := some "User or email already exists" },
        db := db, mails := [] }
    else
      match dbFail with
      | some _ =>
        { resp := { status := 500, error := some "Database error" },
          db := db, mails := [] }
      | none =>
        let acct : Account :=
          { id := db.nextId, username := username, email := e,
            password := hashed, verified := false }
        let db' : DB := { accounts := db.accounts ++ [acct], nextId := db.nextId + 1 }
        let t := signJwt { id := none, email := e } secret now oneDay
        let mail : MailMsg := { toAddr := e, token := t }
        match mailFail with
        | some _ =>
          { resp := { status := 500, error := some "Failed to send verification email" },
            db := db', mails := [mail] }
        | none =>
          { resp := { status := 201, message := some "Registered. Check your email to verify." },
            db := db', mails := [mail] }
  | _, _ =>
    { resp := { status := 400, error := some "Email and password required" },
      db := db, mails := [] }

/-- `GET /verify-email` of `src/index.js`: validates the token, runs the
UPDATE, answers 404 "Email not found" when `affectedRows === 0`, otherwise
the verified page. -/
def verifyEmail (db : DB) (tokenParam : Option Token)
    (secret : String) (now : Nat) (dbFail : Option String) : VerifyOut :=
  match tokenParam with
  | none => { resp := { status := 400, message := some "Token missing" }, db := db }
  | some t =>
    match verifyJwt t secret now with
    | none =>
      { resp := { status := 400, message := some "Invalid or expired token" }, db := db }
    | some decoded =>
      match dbFail with
      | some _ =>
        { resp := { status := 500, message := some "Database error" }, db := db }
      | none =>
        let db' := markVerified db decoded.email
        if affectedRows db decoded.email = 0 then
          { resp := { status := 404, message := some "Email not found" }, db := db' }
        else
          { resp := { status := 200, message := some "Email Verified" }, db := db' }

/-- `POST /login` of `src/index.js`: looks the account up by email; 400
"User not found", 403 "Email not verified" for an unverified account, 400
"Invalid credentials" on password mismatch, else a 1-hour session token
`{id, email}`. -/
def login (db : DB) (email password : Option String)
    (secret : String) (now : Nat) (dbFail : Option String) : Resp :=
  match email, password with
  | some e, some p =>
    match dbFail with
    | some _ => { status := 500, error := some "Database error" }
    | none =>
      match findByEmail db e with
      | none => { status := 400, error := some "User not found" }
      | some user =>
        if !user.verified then
          { status := 403, error := some "Email not verified" }
        else if bcryptCompare p user.password then
          { status := 200,
            token := some (signJwt { id := some user.id, email := user.email } secret now oneHour) }
        else
          { status := 400, error := some "Invalid credentials" }
  | _, _ => { status := 400, error := some "Email and password required" }

/-- `authenticateToken` of `src/index.js`: takes `split(" ")[1]` of the
Authorization header, falls back to `req.cookies?.token` (always undefined
here, no cookie-parser is installed, but kept as a parameter), answers 401
when no truthy token results, 403 when `jwt.verify` fails, and attaches the
decoded claims otherwise. -/
def authenticateToken (authHeader : Option (List AuthWord)) (cookieToken : Option AuthWord)
    (secret : String) (now : Nat) : AuthResult :=
  let tokenFromHeader := authHeader.bind (fun ws => ws.get? 1)
  match jsOr tokenFromHeader cookieToken with
  | none => .unauthorized
  | some w =>
    if truthy w then
      match verifyWord w secret now with
      | none => .forbidden
      | some user => .ok user
    else .unauthorized

/-- `POST /chat` of `src/index.js`: the protected operation behind
`authenticateToken`; `aiCalled` records whether the OpenAI completion was
invoked. -/
def chat (authHeader : Option (List AuthWord)) (cookieToken : Option AuthWord)
    (message : Option String) (secret : String) (now : Nat) : Resp × Bool :=
  match authenticateToken authHeader cookieToken secret now with
  | .unauthorized => ({ status := 401, error := some "Access denied" }, false)
  | .forbidden => ({ status := 403, error := some "Invalid token" }, false)
  | .ok _ =>
    match message with
    | none => ({ status := 400, error := some "Message is required" }, false)
    | some _ => ({ status := 200, message := some "reply" }, true)

end Jixify.Main

namespace Jixify.Api

/-!
## `src/api/index.js`

`POST /register` (lines 65-98), `GET /verify-email` (101-113),
`POST /login` (116-137), `authenticateToken` (52-62), `POST /chat`
(140-154).
-/

open Jixify

/-- The driver message of an `ER_DUP_ENTRY` error (`err.message`);
its exact text comes from MySQL, only its presence matters here. -/
def dupEntryMessage (email : String) : String :=
  "Duplicate entry " ++ email

/-- `POST /register` of `src/api/index.js`: requires `username`, `email`
and `password` (400 "Missing fields" otherwise); any insert error yields
400 with the raw `err.message`; on success it mints a 1-day verification
token for `{email}`, calls `sendMail` with no callback, and answers 200
success unconditionally. -/
def register (db : DB) (username email password : Option String)
    (secret : String) (now : Nat)
    (dbFail mailFail : Option String) : RegisterOut :=
  match username, email, password with
  | some un, some e, some p =>
    let hashed := bcryptHash p 10
    if emailTaken db e || usernameTaken db (some un) then
      { resp := { status := 400, error := some (dupEntryMessage e) },
        db := db, mails := [] }
    else
      match dbFail with
      | some m =>
        { resp := { status := 400, error := some m }, db := db, mails := [] }
      | none =>
        let acct : Account :=
          { id := db.nextId, username := some un, email := e,
            password := hashed, verified := false }
        let db' : DB := { accounts := db.accounts ++ [acct], nextId := db.nextId + 1 }
        let t := signJwt { id := none, email := e } secret now oneDay
        let mail : MailMsg := { toAddr := e, token := t }
        let _ := mailFail
        { resp := { status := 200, message := some "Registered! Check your email to verify." },
          db := db', mails := [mail] }
  | _, _, _ =>
    { resp := { status := 400, error := some "Missing fields" }, db := db, mails := [] }

/-- `GET /verify-email` of `src/api/index.js`: validates the token, runs
the UPDATE, and answers success whenever the UPDATE itself did not error;
`result.affectedRows` is never inspected. -/
def verifyEmail (db : DB) (tokenParam : Option Token)
    (secret : String) (now : Nat) (dbFail : Option String) : VerifyOut :=
  match tokenParam with
  | none => { resp := { status := 400, error := some "Token missing" }, db := db }
  | some t =>
    match verifyJwt t secret now with
    | none => { resp := { status := 400, error := some "Invalid token" }, db := db }
    | some decoded =>
      match dbFail with
      | some _ =>
        { resp := { status := 500, error := some "Database error" }, db := db }
      | none =>
        { resp := { status := 200, message := some "Email verified! You can now log in." },
          db := markVerified db decoded.email }

/-- `POST /login` of `src/api/index.js`: 500 with the raw `err.message` on
a query error, 400 "User not found", 400 "Email not verified" for an
unverified account, 400 "Invalid credentials" on password mismatch, else a
1-hour session token `{id, email}`. -/
def login (db : DB) (email password : Option String)
    (secret : String) (now : Nat) (dbFail : Option String) : Resp :=
  match email, password with
  | some e, some p =>
    match dbFail with
    | some m => { status := 500, error := some m }
    | none =>
      match findByEmail db e with
      | none => { status := 400, error := some "User not found" }
      | some user =>
        if !user.verified then
          { status := 400, error := some "Email not verified" }
        else if bcryptCompare p user.password then
          { status := 200,
            token := some (signJwt { id := some user.id, email := user.email } secret now oneHour) }
        else
          { status := 400, error := some "Invalid credentials" }
  | _, _ => { status := 400, error := some "Email and password are required" }

/-- `authenticateToken` of `src/api/index.js`: takes `split(" ")[1]` of the
Authorization header (no cookie fallback), 401 when no truthy token, 403
when `jwt.verify` fails, else attaches the decoded claims. -/
def authenticateToken (authHeader : Option (List AuthWord))
    (secret : String) (now : Nat) : AuthResult :=
  match authHeader.bind (fun ws => ws.get? 1) with
  | none => .unauthorized
  | some w =>
    if truthy w then
      match verifyWord w secret now with
      | none => .forbidden
      | some user => .ok user
    else .unauthorized

/-- `POST /chat` of `src/api/index.js`: the protected operation behind
`authenticateToken`; `aiCalled` records whether the OpenAI completion was
invoked. -/
def chat (authHeader : Option (List AuthWord)) (message : Option String)
    (secret : String) (now : Nat) : Resp × Bool :=
  match authenticateToken authHeader secret now with
  | .unauthorized => ({ status := 401 }, false)
  | .forbidden => ({ status := 403 }, false)
  | .ok _ =>
    match message with
    | none => ({ status := 400, error := some "Message is required" }, false)
    | some _ => ({ status := 200, message := some "reply" }, true)

end Jixify.Api

namespace Jixify

/-! ## Concrete fixtures used by witnesses and counterexamples -/

/-- An empty `users_tbl`. -/
def emptyDb : DB := { accounts := [], nextId := 1 }

/-- A sample unverified account. -/
def bobUnverified : Account :=
  { id := 1, username := some "bob", email := "a@x.com",
    password := bcryptHash "pw" 10, verified := false }

/-- The same account once verified. -/
def bobVerified : Account := { bobUnverified with verified := true }

/-- A second, verified account with another email. -/
def eveVerified : Account :=
  { id := 2, username := some "eve", email := "b@x.com",
    password := bcryptHash "pw2" 10, verified := true }

/-- A table holding only the unverified sample account. -/
def dbBobUnverified : DB := { accounts := [bobUnverified], nextId := 2 }

/-- A table holding only the verified sample account. -/
def dbBobVerified : DB := { accounts := [bobVerified], nextId := 2 }

/-- A table holding only the second verified account. -/
def dbEve : DB := { accounts := [eveVerified], nextId := 3 }

end Jixify


namespace Jixify

/-! ## Helper lemmas shared by the claim theorems -/

lemma emailTaken_append (db : DB) (a : Account) (n : Nat) (e : String)
    (h : a.email = e) :
    emailTaken { accounts := db.accounts ++ [a], nextId := n } e = true := by
  simp [emailTaken, List.any_append, h]

lemma affectedRows_eq_zero_iff (db : DB) (e : String) :
    affectedRows db e = 0 ↔ emailTaken db e = false := by
  simp [affectedRows, emailTaken, List.length_eq_zero, List.filter_eq_nil_iff,
    List.any_eq_true]

lemma find?_markVerified_list (l : List Account) (e : String) :
    (l.map (fun a => if a.email = e then { a with verified := true } else a)).find?
        (fun a => a.email = e) =
      (l.find? (fun a => a.email = e)).map (fun a => { a with verified := true }) := by
  induction l with
  | nil => rfl
  | cons a l ih =>
    by_cases h : a.email = e
    · simp [List.find?_cons, h]
    · simp [List.find?_cons, h, ih]

lemma findByEmail_markVerified (db : DB) (e : String) :
    findByEmail (markVerified db e) e =
      (findByEmail db e).map (fun a => { a with verified := true }) := by
  simpa [findByEmail, markVerified] using find?_markVerified_list db.accounts e

lemma affectedRows_markVerified (db : DB) (e e2 : String) :
    affectedRows (markVerified db e2) e = affectedRows db e := by
  unfold affectedRows markVerified
  induction db.accounts with
  | nil => rfl
  | cons a l ih =>
    by_cases h : a.email = e2 <;> by_cases h2 : a.email = e <;>
      simp_all [List.filter_cons]

lemma markVerified_idem (db : DB) (e : String) :
    markVerified (markVerified db e) e = markVerified db e := by
  unfold markVerified
  simp only [List.map_map]
  congr 1
  apply List.map_congr_left
  intro a _
  by_cases h : a.email = e <;> simp [h, Function.comp]

lemma findByEmail_isSome_of_emailTaken (db : DB) (e : String)
    (h : emailTaken db e = true) : (findByEmail db e).isSome := by
  simp only [emailTaken, List.any_eq_true, decide_eq_true_eq] at h
  obtain ⟨a, ha, he⟩ := h
  simp only [findByEmail]
  rcases hf : db.accounts.find? (fun a => a.email = e) with _ | b
  · exact absurd (List.find?_eq_none.mp hf a ha) (by simp [he])
  · simp [hf]

lemma verifyJwt_fresh (payload : JwtClaims) (secret : String) (now ttl : Nat)
    (h : 0 < ttl) :
    verifyJwt (signJwt payload secret now ttl) secret now = some payload := by
  simp [verifyJwt, signJwt, Nat.lt_add_of_pos_right h]

end Jixify

namespace Jixify

/-! ## Claim theorems -/

/-- C1: for every registration request with all required fields present, a
unique email and (when a username is supplied) a unique username, both
`Register` handlers append exactly one new account whose `verified` flag is
false, make exactly one verification-mail delivery attempt regardless of
the delivery outcome, and the token embedded in the delivered link decodes
under the signing secret to a claims payload whose email equals the
registered email. -/
theorem register_unique_email_creates_unverified_account_and_one_mail
    (db : DB) (un : Option String) (u e p secret : String) (now : Nat)
    (mf mf2 : Option String)
    (he : emailTaken db e = false) (hun : usernameTaken db un = false)
    (hu : usernameTaken db (some u) = false) :
    ((Main.register db un (some e) (some p) secret now none mf).db =
        { accounts := db.accounts ++
            [{ id := db.nextId, username := un, email := e,
               password := bcryptHash p 10, verified := false }],
          nextId := db.nextId + 1 } ∧
      (Main.register db un (some e) (some p) secret now none mf).mails =
        [{ toAddr := e, token := signJwt { id := none, email := e } secret now oneDay }]) ∧
    ((Api.register db (some u) (some e) (some p) secret now none mf2).db =
        { accounts := db.accounts ++
            [{ id := db.nextId, username := some u, email := e,
               password := bcryptHash p 10, verified := false }],
          nextId := db.nextId + 1 } ∧
      (Api.register db (some u) (some e) (some p) secret now none mf2).mails =
        [{ toAddr := e, token := signJwt { id := none, email := e } secret now oneDay }]) ∧
    verifyJwt (signJwt { id := none, email := e } secret now oneDay) secret now =
      some { id := none, email := e } := by
  refine ⟨?_, ?_, verifyJwt_fresh _ _ _ _ (by decide)⟩
  · cases mf <;> simp [Main.register, he, hun]
  · cases mf2 <;> simp [Api.register, he, hu]

/-- Witness for C1 at a concrete registration. -/
theorem register_unique_email_creates_unverified_account_and_one_mail_witness :
    (emailTaken { accounts := [], nextId := 1 } "a@x.com" = false ∧
      usernameTaken { accounts := [], nextId := 1 } none = false ∧
      usernameTaken { accounts := [], nextId := 1 } (some "bob") = false) ∧
    (Main.register { accounts := [], nextId := 1 } none (some "a@x.com") (some "pw")
        "s" 0 none none).mails =
      [{ toAddr := "a@x.com",
         token := signJwt { id := none, email := "a@x.com" } "s" 0 oneDay }] :=
  ⟨⟨rfl, rfl, rfl⟩,
    (register_unique_email_creates_unverified_account_and_one_mail
      { accounts := [], nextId := 1 } none "bob" "a@x.com" "pw" "s" 0 none none
      rfl rfl rfl).1.2⟩

end Jixify

namespace Jixify

/-- C2 counterexample: `GET /verify-email` of `src/api/index.js`, given a
valid token for an email that belongs to no account (empty table), answers
200 "Email verified! You can now log in." instead of an email-not-found
error: it never inspects `result.affectedRows`. -/
theorem api_verifyEmail_unknown_email_reports_success :
    emailTaken { accounts := [], nextId := 1 } "a@x.com" = false ∧
    (Api.verifyEmail { accounts := [], nextId := 1 }
        (some (signJwt { id := none, email := "a@x.com" } "s" 0 oneDay)) "s" 0 none).resp =
      { status := 200, message := some "Email verified! You can now log in." } := by
  constructor <;> decide

/-- C2 (amended): for every token that validates successfully with claim
email `c.email`, if an account with that email exists then both
`VerifyEmail` handlers leave `findByEmail` returning a verified account and
report success; if no such account exists, `src/index.js` reports the 404
email-not-found error while `src/api/index.js` still reports success. -/
theorem verifyEmail_valid_token_sets_verified
    (db : DB) (t : Token) (c : JwtClaims) (secret : String) (now : Nat)
    (hval : verifyJwt t secret now = some c) :
    (emailTaken db c.email = true →
      (∃ a, findByEmail (Main.verifyEmail db (some t) secret now none).db c.email = some a ∧
          a.verified = true) ∧
      (Main.verifyEmail db (some t) secret now none).resp =
        { status := 200, message := some "Email Verified" }) ∧
    (emailTaken db c.email = false →
      (Main.verifyEmail db (some t) secret now none).resp =
        { status := 404, message := some "Email not found" }) ∧
    (emailTaken db c.email = true →
      (∃ a, findByEmail (Api.verifyEmail db (some t) secret now none).db c.email = some a ∧
          a.verified = true) ∧
      (Api.verifyEmail db (some t) secret now none).resp =
        { status := 200, message := some "Email verified! You can now log in." }) ∧
    (emailTaken db c.email = false →
      (Api.verifyEmail db (some t) secret now none).resp =
        { status := 200, message := some "Email verified! You can now log in." }) := by
  have hfind : emailTaken db c.email = true →
      ∃ a, findByEmail (markVerified db c.email) c.email = some a ∧ a.verified = true := by
    intro he
    obtain ⟨a, hfa⟩ := Option.isSome_iff_exists.mp (findByEmail_isSome_of_emailTaken db c.email he)
    exact ⟨{ a with verified := true }, by rw [findByEmail_markVerified, hfa]; rfl, rfl⟩
  refine ⟨fun he => ?_, fun he => ?_, fun he => ?_, fun he => ?_⟩
  · have haff : ¬ affectedRows db c.email = 0 := by
      intro h0
      rw [affectedRows_eq_zero_iff] at h0
      simp [h0] at he
    constructor
    · simpa [Main.verifyEmail, hval, haff] using hfind he
    · simp [Main.verifyEmail, hval, haff]
  · have haff : affectedRows db c.email = 0 := (affectedRows_eq_zero_iff db c.email).mpr he
    simp [Main.verifyEmail, hval, haff]
  · constructor
    · simpa [Api.verifyEmail, hval] using hfind he
    · simp [Api.verifyEmail, hval]
  · simp [Api.verifyEmail, hval]

/-- Witness for C2 (amended) at a concrete token and an empty table. -/
theorem verifyEmail_valid_token_sets_verified_witness :
    verifyJwt (signJwt { id := none, email := "a@x.com" } "s" 0 oneDay) "s" 0 =
      some { id := none, email := "a@x.com" } ∧
    emailTaken { accounts := [], nextId := 1 } "a@x.com" = false ∧
    (Main.verifyEmail { accounts := [], nextId := 1 }
        (some (signJwt { id := none, email := "a@x.com" } "s" 0 oneDay)) "s" 0 none).resp =
      { status := 404, message := some "Email not found" } :=
  ⟨by decide, by decide,
    (verifyEmail_valid_token_sets_verified { accounts := [], nextId := 1 }
        (signJwt { id := none, email := "a@x.com" } "s" 0 oneDay)
        { id := none, email := "a@x.com" } "s" 0 (by decide)).2.1 (by decide)⟩

end Jixify

namespace Jixify

/-- C3: `VerifyEmail` is idempotent in both handlers.  For a token that
validates (at both call times) with claim email `c.email` belonging to an
existing account, the first call flips the account to verified and reports
success, and a second call with the same token returns the same success
response and leaves the table exactly as the first call left it — no
error and no further state change (the handler makes no mail attempt at
all).  `result.affectedRows` counts matched rows (mysql2 FOUND_ROWS
default), so the second UPDATE still matches the row. -/
theorem verifyEmail_idempotent_second_call
    (db : DB) (t : Token) (c : JwtClaims) (secret : String) (n1 n2 : Nat)
    (hv1 : verifyJwt t secret n1 = some c) (hv2 : verifyJwt t secret n2 = some c)
    (he : emailTaken db c.email = true) :
    Main.verifyEmail db (some t) secret n1 none =
      { resp := { status := 200, message := some "Email Verified" },
        db := markVerified db c.email } ∧
    Main.verifyEmail (markVerified db c.email) (some t) secret n2 none =
      { resp := { status := 200, message := some "Email Verified" },
        db := markVerified db c.email } ∧
    Api.verifyEmail db (some t) secret n1 none =
      { resp := { status := 200, message := some "Email verified! You can now log in." },
        db := markVerified db c.email } ∧
    Api.verifyEmail (markVerified db c.email) (some t) secret n2 none =
      { resp := { status := 200, message := some "Email verified! You can now log in." },
        db := markVerified db c.email } := by
  have haff : ¬ affectedRows db c.email = 0 := by
    intro h0
    rw [affectedRows_eq_zero_iff] at h0
    simp [h0] at he
  have haff2 : ¬ affectedRows (markVerified db c.email) c.email = 0 := by
    rw [affectedRows_markVerified]
    exact haff
  refine ⟨?_, ?_, ?_, ?_⟩
  · simp [Main.verifyEmail, hv1, haff]
  · simp [Main.verifyEmail, hv2, haff2, markVerified_idem]
  · simp [Api.verifyEmail, hv1]
  · simp [Api.verifyEmail, hv2, markVerified_idem]

/-- Witness for C3 at a concrete account and token. -/
theorem verifyEmail_idempotent_second_call_witness :
    verifyJwt (signJwt { id := none, email := "a@x.com" } "s" 0 oneDay) "s" 5 =
      some { id := none, email := "a@x.com" } ∧
    emailTaken
      { accounts := [{ id := 1, username := some "bob", email := "a@x.com",
                       password := "d", verified := false }], nextId := 2 } "a@x.com" = true ∧
    Main.verifyEmail
        (markVerified
          { accounts := [{ id := 1, username := some "bob", email := "a@x.com",
                           password := "d", verified := false }], nextId := 2 } "a@x.com")
        (some (signJwt { id := none, email := "a@x.com" } "s" 0 oneDay)) "s" 5 none =
      { resp := { status := 200, message := some "Email Verified" },
        db := markVerified
          { accounts := [{ id := 1, username := some "bob", email := "a@x.com",
                           password := "d", verified := false }], nextId := 2 } "a@x.com" } :=
  ⟨by decide, by decide,
    (verifyEmail_idempotent_second_call
        { accounts := [{ id := 1, username := some "bob", email := "a@x.com",
                         password := "d", verified := false }], nextId := 2 }
        (signJwt { id := none, email := "a@x.com" } "s" 0 oneDay)
        { id := none, email := "a@x.com" } "s" 5 5 (by decide) (by decide) (by decide)).2.1⟩

end Jixify


namespace Jixify

/-- C4 counterexample: in `src/api/index.js` the rejection of an
unverified account supplied with its correct password carries status 400 —
the very same status as the invalid-credentials authentication error — so
it is not a distinct authorization-class (403) error; only the message
text differs. -/
theorem api_login_unverified_same_status_as_invalid_credentials :
    Api.login dbBobUnverified (some "a@x.com") (some "pw") "s" 0 none =
      { status := 400, error := some "Email not verified" } ∧
    Api.login dbBobVerified (some "a@x.com") (some "wrong") "s" 0 none =
      { status := 400, error := some "Invalid credentials" } := by
  constructor <;> decide

/-- C4 (amended): for every account with `verified = false`, `Login` with
that email is rejected before the password is even compared, whatever
password is supplied: `src/index.js` answers 403 "Email not verified", a
status distinct from the 400 "Invalid credentials" authentication error,
while `src/api/index.js` answers 400 "Email not verified" — the same
status as invalid-credentials, distinguished only by the message text. -/
theorem login_unverified_rejected_before_password_check
    (db db2 : DB) (e p e2 p2 secret : String) (now : Nat) (a a2 : Account)
    (hf : findByEmail db e = some a) (hv : a.verified = false)
    (hf2 : findByEmail db2 e2 = some a2) (hv2 : a2.verified = true)
    (hc2 : bcryptCompare p2 a2.password = false) :
    Main.login db (some e) (some p) secret now none =
      { status := 403, error := some "Email not verified" } ∧
    Api.login db (some e) (some p) secret now none =
      { status := 400, error := some "Email not verified" } ∧
    Main.login db2 (some e2) (some p2) secret now none =
      { status := 400, error := some "Invalid credentials" } ∧
    Api.login db2 (some e2) (some p2) secret now none =
      { status := 400, error := some "Invalid credentials" } := by
  refine ⟨?_, ?_, ?_, ?_⟩
  · simp [Main.login, hf, hv]
  · simp [Api.login, hf, hv]
  · simp [Main.login, hf2, hv2, hc2]
  · simp [Api.login, hf2, hv2, hc2]

/-- Witness for C4 (amended): the unverified sample account supplied with
its correct password is still rejected 403 by `src/index.js`. -/
theorem login_unverified_rejected_before_password_check_witness :
    findByEmail dbBobUnverified "a@x.com" = some bobUnverified ∧
    bobUnverified.verified = false ∧
    bcryptCompare "pw" bobUnverified.password = true ∧
    Main.login dbBobUnverified (some "a@x.com") (some "pw") "s" 0 none =
      { status := 403, error := some "Email not verified" } :=
  ⟨by decide, by decide, by decide,
    (login_unverified_rejected_before_password_check dbBobUnverified dbEve
        "a@x.com" "pw" "b@x.com" "wrong" "s" 0 bobUnverified eveVerified
        (by decide) (by decide) (by decide) (by decide) (by decide)).1⟩

end Jixify

namespace Jixify

/-- C5: in both servers a session token is issued only by `Login`, and only
for an account that is verified at that moment: whenever a login response
carries a token, some stored account is verified and the token is exactly
the 1-hour session token `{id, email}` of that account; `Register` and
`VerifyEmail` never attach a token to their responses. -/
theorem session_token_only_for_verified_accounts :
    (∀ db em pw secret now df t, (Main.login db em pw secret now df).token = some t →
      ∃ a, a ∈ db.accounts ∧ a.verified = true ∧
        t = signJwt { id := some a.id, email := a.email } secret now oneHour) ∧
    (∀ db em pw secret now df t, (Api.login db em pw secret now df).token = some t →
      ∃ a, a ∈ db.accounts ∧ a.verified = true ∧
        t = signJwt { id := some a.id, email := a.email } secret now oneHour) ∧
    (∀ db un em pw secret now df mf,
      (Main.register db un em pw secret now df mf).resp.token = none) ∧
    (∀ db un em pw secret now df mf,
      (Api.register db un em pw secret now df mf).resp.token = none) ∧
    (∀ db tp secret now df, (Main.verifyEmail db tp secret now df).resp.token = none) ∧
    (∀ db tp secret now df, (Api.verifyEmail db tp secret now df).resp.token = none) := by
  refine ⟨?_, ?_, ?_, ?_, ?_, ?_⟩
  · intro db em pw secret now df t h
    rcases em with _ | e
    · simp [Main.login] at h
    · rcases pw with _ | p
      · simp [Main.login] at h
      · rcases df with _ | m
        · rcases hf : findByEmail db e with _ | user
          · simp [Main.login, hf] at h
          · rcases hbv : user.verified with _ | _
            · simp [Main.login, hf, hbv] at h
            · rcases hbc : bcryptCompare p user.password with _ | _
              · simp [Main.login, hf, hbv, hbc] at h
              · refine ⟨user, List.mem_of_find?_eq_some (by simpa [findByEmail] using hf),
                  hbv, ?_⟩
                simp [Main.login, hf, hbv, hbc] at h
                exact h.symm
        · simp [Main.login] at h
  · intro db em pw secret now df t h
    rcases em with _ | e
    · simp [Api.login] at h
    · rcases pw with _ | p
      · simp [Api.login] at h
      · rcases df with _ | m
        · rcases hf : findByEmail db e with _ | user
          · simp [Api.login, hf] at h
          · rcases hbv : user.verified with _ | _
            · simp [Api.login, hf, hbv] at h
            · rcases hbc : bcryptCompare p user.password with _ | _
              · simp [Api.login, hf, hbv, hbc] at h
              · refine ⟨user, List.mem_of_find?_eq_some (by simpa [findByEmail] using hf),
                  hbv, ?_⟩
                simp [Api.login, hf, hbv, hbc] at h
                exact h.symm
        · simp [Api.login] at h
  · intro db un em pw secret now df mf
    rcases em with _ | e
    · rfl
    · rcases pw with _ | p
      · rfl
      · rcases df with _ | m <;> rcases mf with _ | m2 <;>
          simp only [Main.register] <;> split <;> rfl
  · intro db un em pw secret now df mf
    rcases un with _ | u
    · rfl
    · rcases em with _ | e
      · rfl
      · rcases pw with _ | p
        · rfl
        · rcases df with _ | m <;> rcases mf with _ | m2 <;>
            simp only [Api.register] <;> split <;> rfl
  · intro db tp secret now df
    rcases tp with _ | t
    · rfl
    · rcases hv : verifyJwt t secret now with _ | c
      · simp [Main.verifyEmail, hv]
      · rcases df with _ | m
        · simp only [Main.verifyEmail, hv]
          split <;> rfl
        · simp [Main.verifyEmail, hv]
  · intro db tp secret now df
    rcases tp with _ | t
    · rfl
    · rcases hv : verifyJwt t secret now with _ | c
      · simp [Api.verifyEmail, hv]
      · rcases df with _ | m <;> simp [Api.verifyEmail, hv]

/-- Witness for C5: the verified sample account logs in with its correct
password and receives its 1-hour session token. -/
theorem session_token_only_for_verified_accounts_witness :
    (Main.login dbBobVerified (some "a@x.com") (some "pw") "s" 0 none).token =
      some (signJwt { id := some 1, email := "a@x.com" } "s" 0 oneHour) ∧
    ∃ a, a ∈ dbBobVerified.accounts ∧ a.verified = true ∧
      signJwt { id := some 1, email := "a@x.com" } "s" 0 oneHour =
        signJwt { id := some a.id, email := a.email } "s" 0 oneHour :=
  ⟨by decide,
    session_token_only_for_verified_accounts.1 dbBobVerified (some "a@x.com")
      (some "pw") "s" 0 none (signJwt { id := some 1, email := "a@x.com" } "s" 0 oneHour)
      (by decide)⟩

end Jixify

namespace Jixify

/-- C6 counterexample: `src/api/index.js` rejects a registration request
that supplies email and password but omits the username — username is a
required field there, so the request is not accepted. -/
theorem api_register_rejects_missing_username :
    Api.register emptyDb none (some "a@x.com") (some "pw") "s" 0 none none =
      { resp := { status := 400, error := some "Missing fields" },
        db := emptyDb, mails := [] } := by
  decide

/-- C6 (amended): any registration missing email or missing password is
rejected 400 by both handlers before any state change or mail attempt;
a request with email and password but no username is accepted by
`src/index.js` (username optional there), while `src/api/index.js` also
requires username and rejects such a request with 400 "Missing fields". -/
theorem register_field_validation
    (db : DB) (e p secret : String) (now : Nat) (he : emailTaken db e = false) :
    (∀ un pw df mf, Main.register db un none pw secret now df mf =
      { resp := { status := 400, error := some "Email and password required" },
        db := db, mails := [] }) ∧
    (∀ un em df mf, Main.register db un em none secret now df mf =
      { resp := { status := 400, error := some "Email and password required" },
        db := db, mails := [] }) ∧
    Main.register db none (some e) (some p) secret now none none =
      { resp := { status := 201, message := some "Registered. Check your email to verify." },
        db := { accounts := db.accounts ++
                  [{ id := db.nextId, username := none, email := e,
                     password := bcryptHash p 10, verified := false }],
                nextId := db.nextId + 1 },
        mails := [{ toAddr := e, token := signJwt { id := none, email := e } secret now oneDay }] } ∧
    (∀ em pw df mf, Api.register db none em pw secret now df mf =
      { resp := { status := 400, error := some "Missing fields" },
        db := db, mails := [] }) ∧
    (∀ un pw df mf, Api.register db un none pw secret now df mf =
      { resp := { status := 400, error := some "Missing fields" },
        db := db, mails := [] }) ∧
    (∀ un em df mf, Api.register db un em none secret now df mf =
      { resp := { status := 400, error := some "Missing fields" },
        db := db, mails := [] }) := by
  refine ⟨?_, ?_, ?_, ?_, ?_, ?_⟩
  · intro un pw df mf
    rcases pw with _ | p2 <;> rfl
  · intro un em df mf
    rcases em with _ | e2 <;> rfl
  · simp [Main.register, he, usernameTaken]
  · intro em pw df mf
    rcases em with _ | e2 <;> rcases pw with _ | p2 <;> rfl
  · intro un pw df mf
    rcases un with _ | u2 <;> rcases pw with _ | p2 <;> rfl
  · intro un em df mf
    rcases un with _ | u2 <;> rcases em with _ | e2 <;> rfl

/-- Witness for C6 (amended): on an empty table, registering without a
username succeeds in `src/index.js`. -/
theorem register_field_validation_witness :
    emailTaken emptyDb "a@x.com" = false ∧
    Main.register emptyDb none (some "a@x.com") (some "pw") "s" 0 none none =
      { resp := { status := 201, message := some "Registered. Check your email to verify." },
        db := { accounts := [{ id := 1, username := none, email := "a@x.com",
                               password := bcryptHash "pw" 10, verified := false }],
                nextId := 2 },
        mails := [{ toAddr := "a@x.com",
                    token := signJwt { id := none, email := "a@x.com" } "s" 0 oneDay }] } :=
  ⟨rfl, by
    have h := (register_field_validation emptyDb "a@x.com" "pw" "s" 0 rfl).2.2.1
    simpa [emptyDb] using h⟩

end Jixify

namespace Jixify

lemma main_register_conflict (X : DB) (un2 : Option String) (e p2 secret : String)
    (n2 : Nat) (df mf2 : Option String) (he1 : emailTaken X e = true) :
    Main.register X un2 (some e) (some p2) secret n2 df mf2 =
      { resp := { status := 400, error := some "User or email already exists" },
        db := X, mails := [] } := by
  simp [Main.register, he1]

lemma api_register_conflict (X : DB) (u2 : String) (e p2 secret : String)
    (n2 : Nat) (df mf2 : Option String) (he1 : emailTaken X e = true) :
    Api.register X (some u2) (some e) (some p2) secret n2 df mf2 =
      { resp := { status := 400, error := some (Api.dupEntryMessage e) },
        db := X, mails := [] } := by
  simp [Api.register, he1]

/-- C7: after a successful registration with email `e`, a second `Register`
with the same email fails with the user-facing duplicate-conflict response
(400 "User or email already exists" in `src/index.js`; 400 with the
driver's ER_DUP_ENTRY message in `src/api/index.js`), makes no mail
attempt, and leaves the whole table — in particular every field of the
first account — exactly as the first registration left it, whatever the
first attempt's mail outcome was. -/
theorem duplicate_email_registration_conflict
    (db : DB) (un un2 : Option String) (u u2 e p p2 p3 p4 secret : String)
    (n1 n2 : Nat) (mf mf2 mf3 mf4 : Option String)
    (he : emailTaken db e = false) (hun : usernameTaken db un = false)
    (hu : usernameTaken db (some u) = false) :
    Main.register (Main.register db un (some e) (some p) secret n1 none mf).db
        un2 (some e) (some p2) secret n2 none mf2 =
      { resp := { status := 400, error := some "User or email already exists" },
        db := (Main.register db un (some e) (some p) secret n1 none mf).db,
        mails := [] } ∧
    Api.register (Api.register db (some u) (some e) (some p3) secret n1 none mf3).db
        (some u2) (some e) (some p4) secret n2 none mf4 =
      { resp := { status := 400, error := some (Api.dupEntryMessage e) },
        db := (Api.register db (some u) (some e) (some p3) secret n1 none mf3).db,
        mails := [] } := by
  have hdb1 : (Main.register db un (some e) (some p) secret n1 none mf).db =
      { accounts := db.accounts ++
          [{ id := db.nextId, username := un, email := e,
             password := bcryptHash p 10, verified := false }],
        nextId := db.nextId + 1 } := by
    cases mf <;> simp [Main.register, he, hun]
  have hdb2 : (Api.register db (some u) (some e) (some p3) secret n1 none mf3).db =
      { accounts := db.accounts ++
          [{ id := db.nextId, username := some u, email := e,
             password := bcryptHash p3 10, verified := false }],
        nextId := db.nextId + 1 } := by
    cases mf3 <;> simp [Api.register, he, hu]
  have he1 : emailTaken (Main.register db un (some e) (some p) secret n1 none mf).db e = true := by
    rw [hdb1]
    exact emailTaken_append db _ _ e rfl
  have he2 : emailTaken (Api.register db (some u) (some e) (some p3) secret n1 none mf3).db e
      = true := by
    rw [hdb2]
    exact emailTaken_append db _ _ e rfl
  exact ⟨main_register_conflict _ un2 e p2 secret n2 none mf2 he1,
    api_register_conflict _ u2 e p4 secret n2 none mf4 he2⟩

/-- Witness for C7: registering `a@x.com` twice on an initially empty
table; the second attempt gets the conflict response and changes
nothing. -/
theorem duplicate_email_registration_conflict_witness :
    emailTaken emptyDb "a@x.com" = false ∧
    Main.register (Main.register emptyDb none (some "a@x.com") (some "pw") "s" 0 none none).db
        none (some "a@x.com") (some "pw2") "s" 1 none none =
      { resp := { status := 400, error := some "User or email already exists" },
        db := (Main.register emptyDb none (some "a@x.com") (some "pw") "s" 0 none none).db,
        mails := [] } :=
  ⟨rfl,
    (duplicate_email_registration_conflict emptyDb none none "bob" "eve" "a@x.com"
        "pw" "pw2" "pw3" "pw4" "s" 0 1 none none none none rfl rfl rfl).1⟩

end Jixify

namespace Jixify

/-- C8 counterexample: in `src/api/index.js`, `sendMail` is invoked with no
callback, so a failing delivery attempt is still answered with the 200
success message — the delivery failure is not reported to the caller. -/
theorem api_register_mail_failure_still_reports_success :
    (Api.register emptyDb (some "bob") (some "a@x.com") (some "pw") "s" 0
        none (some "smtp connection refused")).resp =
      { status := 200, message := some "Registered! Check your email to verify." } ∧
    (Api.register emptyDb (some "bob") (some "a@x.com") (some "pw") "s" 0
        none (some "smtp connection refused")).mails.length = 1 := by
  constructor <;> decide

/-- C8 (amended): when the verification-mail delivery attempt fails,
`src/index.js` reports it to the caller as 500 "Failed to send verification
email" (the created account row stays committed); `src/api/index.js`
answers the 200 success message whatever the delivery outcome, so the
failure is not reported there. -/
theorem register_mail_failure_reporting
    (db : DB) (un : Option String) (u e p secret m : String) (now : Nat)
    (mf : Option String)
    (he : emailTaken db e = false) (hun : usernameTaken db un = false)
    (hu : usernameTaken db (some u) = false) :
    Main.register db un (some e) (some p) secret now none (some m) =
      { resp := { status := 500, error := some "Failed to send verification email" },
        db := { accounts := db.accounts ++
                  [{ id := db.nextId, username := un, email := e,
                     password := bcryptHash p 10, verified := false }],
                nextId := db.nextId + 1 },
        mails := [{ toAddr := e, token := signJwt { id := none, email := e } secret now oneDay }] } ∧
    (Api.register db (some u) (some e) (some p) secret now none mf).resp =
      { status := 200, message := some "Registered! Check your email to verify." } := by
  constructor
  · simp [Main.register, he, hun]
  · cases mf <;> simp [Api.register, he, hu]

/-- Witness for C8 (amended) at a failing delivery on an empty table. -/
theorem register_mail_failure_reporting_witness :
    emailTaken emptyDb "a@x.com" = false ∧
    (Main.register emptyDb none (some "a@x.com") (some "pw") "s" 0
        none (some "smtp connection refused")).resp =
      { status := 500, error := some "Failed to send verification email" } :=
  ⟨rfl, by
    have h := (register_mail_failure_reporting emptyDb none "bob" "a@x.com" "pw" "s"
        "smtp connection refused" 0 none rfl rfl rfl).1
    rw [h]⟩

/-- C9 counterexample: in `src/api/index.js`, a persistence failure of the
register INSERT is answered with status 400 and the raw driver error
message (`err.message`) — internal storage detail leaks to the caller and
the response is not a generic server error. -/
theorem api_register_storage_failure_leaks_driver_message :
    (Api.register emptyDb (some "bob") (some "a@x.com") (some "pw") "s" 0
        (some "connect ETIMEDOUT db-internal:3306") none).resp =
      { status := 400, error := some "connect ETIMEDOUT db-internal:3306" } := by
  decide

/-- C9 (amended): `src/index.js` surfaces every persistence-layer failure
(register INSERT, verify-email UPDATE, login SELECT) as the generic 500
"Database error" response, independent of the driver message `m`, and
never swallows it; `src/api/index.js` does so only in `VerifyEmail`, while
its `Register` answers 400 and its `Login` 500, each carrying the raw
driver message `m`. -/
theorem storage_failure_surfacing
    (db : DB) (un : Option String) (u e p secret m : String) (now : Nat)
    (mf mf2 : Option String) (t : Token) (c : JwtClaims)
    (he : emailTaken db e = false) (hun : usernameTaken db un = false)
    (hu : usernameTaken db (some u) = false)
    (hval : verifyJwt t secret now = some c) :
    Main.register db un (some e) (some p) secret now (some m) mf =
      { resp := { status := 500, error := some "Database error" },
        db := db, mails := [] } ∧
    Main.verifyEmail db (some t) secret now (some m) =
      { resp := { status := 500, message := some "Database error" }, db := db } ∧
    Main.login db (some e) (some p) secret now (some m) =
      { status := 500, error := some "Database error" } ∧
    Api.register db (some u) (some e) (some p) secret now (some m) mf2 =
      { resp := { status := 400, error := some m }, db := db, mails := [] } ∧
    Api.verifyEmail db (some t) secret now (some m) =
      { resp := { status := 500, error := some "Database error" }, db := db } ∧
    Api.login db (some e) (some p) secret now (some m) =
      { status := 500, error := some m } := by
  refine ⟨?_, ?_, ?_, ?_, ?_, ?_⟩
  · simp [Main.register, he, hun]
  · simp [Main.verifyEmail, hval]
  · simp [Main.login]
  · simp [Api.register, he, hu]
  · simp [Api.verifyEmail, hval]
  · simp [Api.login]

/-- Witness for C9 (amended): a concrete driver failure during the
`src/index.js` register INSERT surfaces as the generic 500 response. -/
theorem storage_failure_surfacing_witness :
    emailTaken emptyDb "a@x.com" = false ∧
    Main.register emptyDb none (some "a@x.com") (some "pw") "s" 0
        (some "connect ETIMEDOUT db-internal:3306") none =
      { resp := { status := 500, error := some "Database error" },
        db := emptyDb, mails := [] } :=
  ⟨rfl,
    (storage_failure_surfacing emptyDb none "bob" "a@x.com" "pw" "s"
        "connect ETIMEDOUT db-internal:3306" 0 none none
        (signJwt { id := none, email := "a@x.com" } "s" 0 oneDay)
        { id := none, email := "a@x.com" }
        rfl rfl rfl (by decide)).1⟩

end Jixify

namespace Jixify

/-- C10: both `authenticateToken` middlewares take `split(" ")[1]` of the
Authorization header and never inspect the scheme word: any first word
followed by a valid unexpired token authenticates and attaches the decoded
claims; a request with no token at all (no header, or a header with no
second word, and no cookie) is rejected 401 unauthorized; an invalid or
expired token, or a non-token second word, is rejected 403 forbidden; and
the protected `/chat` operation runs only when authentication returned
decoded claims. -/
theorem authenticateToken_ignores_scheme_word :
    (∀ w t rest secret now c, verifyJwt t secret now = some c →
      Main.authenticateToken (some (w :: AuthWord.tok t :: rest)) none secret now =
        AuthResult.ok c ∧
      Api.authenticateToken (some (w :: AuthWord.tok t :: rest)) secret now =
        AuthResult.ok c) ∧
    (∀ secret now, Main.authenticateToken none none secret now = AuthResult.unauthorized ∧
      Api.authenticateToken none secret now = AuthResult.unauthorized) ∧
    (∀ w secret now,
      Main.authenticateToken (some [w]) none secret now = AuthResult.unauthorized ∧
      Api.authenticateToken (some [w]) secret now = AuthResult.unauthorized) ∧
    (∀ w t rest secret now, verifyJwt t secret now = none →
      Main.authenticateToken (some (w :: AuthWord.tok t :: rest)) none secret now =
        AuthResult.forbidden ∧
      Api.authenticateToken (some (w :: AuthWord.tok t :: rest)) secret now =
        AuthResult.forbidden) ∧
    (∀ w s rest secret now, ¬ s = "" →
      Main.authenticateToken (some (w :: AuthWord.text s :: rest)) none secret now =
        AuthResult.forbidden ∧
      Api.authenticateToken (some (w :: AuthWord.text s :: rest)) secret now =
        AuthResult.forbidden) ∧
    (∀ hdr ck msg secret now, (Main.chat hdr ck msg secret now).2 = true →
      ∃ c, Main.authenticateToken hdr ck secret now = AuthResult.ok c) ∧
    (∀ hdr msg secret now, (Api.chat hdr msg secret now).2 = true →
      ∃ c, Api.authenticateToken hdr secret now = AuthResult.ok c) := by
  refine ⟨?_, ?_, ?_, ?_, ?_, ?_, ?_⟩
  · intro w t rest secret now c h
    constructor <;>
      simp [Main.authenticateToken, Api.authenticateToken, jsOr, truthy, verifyWord, h]
  · intro secret now
    constructor <;> rfl
  · intro w secret now
    constructor <;> rfl
  · intro w t rest secret now h
    constructor <;>
      simp [Main.authenticateToken, Api.authenticateToken, jsOr, truthy, verifyWord, h]
  · intro w s rest secret now h
    constructor <;>
      simp [Main.authenticateToken, Api.authenticateToken, jsOr, truthy, verifyWord, h]
  · intro hdr ck msg secret now h
    rcases hA : Main.authenticateToken hdr ck secret now with _ | _ | c
    · simp [Main.chat, hA] at h
    · simp [Main.chat, hA] at h
    · exact ⟨c, rfl⟩
  · intro hdr msg secret now h
    rcases hA : Api.authenticateToken hdr secret now with _ | _ | c
    · simp [Api.chat, hA] at h
    · simp [Api.chat, hA] at h
    · exact ⟨c, rfl⟩

/-- Witness for C10: a header whose scheme word is "Token" rather than
"Bearer", carrying a valid session token, authenticates in both
middlewares. -/
theorem authenticateToken_ignores_scheme_word_witness :
    verifyJwt (signJwt { id := some 1, email := "a@x.com" } "s" 0 oneHour) "s" 10 =
      some { id := some 1, email := "a@x.com" } ∧
    Main.authenticateToken
        (some [AuthWord.text "Token",
               AuthWord.tok (signJwt { id := some 1, email := "a@x.com" } "s" 0 oneHour)])
        none "s" 10 =
      AuthResult.ok { id := some 1, email := "a@x.com" } :=
  ⟨by decide,
    (authenticateToken_ignores_scheme_word.1 (AuthWord.text "Token")
        (signJwt { id := some 1, email := "a@x.com" } "s" 0 oneHour) [] "s" 10
        { id := some 1, email := "a@x.com" } (by decide)).1⟩

end Jixify
